import Mathlib

/-!
Shallow embedding of the realtime collaboration subsystem of the navigator
repository: the connection manager hook (channel subscribe/unsubscribe with
reference counting, reconnection with exponential backoff, presence, message
broadcast, disconnect) and the team collaboration hook (joinTeam,
updateTeamSettings, activity logging) built on the external data store.

Conventions of the embedding:
- JS `Map<string, T>` is an association list with map-style get/set/delete
  (set replaces the entry when the key is present, appends otherwise).
- Timestamps are integers (milliseconds); timer handles are booleans
  (a timer is either pending or not); the actual wall-clock values stored in
  `last_ping` / `lastActivity` are elided, they are never branched on.
- Nullable columns are `Option`; JS truthiness of a nullable number
  (`if (x)` skipping both `null` and `0`) is modelled explicitly.
- Fallible operations return `Except` (a thrown error) or a structured
  response record, matching which of the two the source uses.
- Randomly generated callback ids are modelled by a fresh-id counter.
-/

namespace Navigator

/-! ### Association-list maps (JS `Map` semantics) -/

/-- `Map.get`: first entry with the key (keys are unique in a real `Map`). -/
def mapGet (m : List (String × List Nat)) (k : String) : Option (List Nat) :=
  match m with
  | [] => none
  | (kh, v) :: rest => if kh = k then some v else mapGet rest k

/-- `Map.set`: replace the entry when present, append otherwise. -/
def mapSet (m : List (String × List Nat)) (k : String) (v : List Nat) :
    List (String × List Nat) :=
  match m with
  | [] => [(k, v)]
  | (kh, vh) :: rest => if kh = k then (k, v) :: rest else (kh, vh) :: mapSet rest k v

/-- `Map.delete`: remove the entry with the key. -/
def mapDelete (m : List (String × List Nat)) (k : String) : List (String × List Nat) :=
  match m with
  | [] => []
  | (kh, vh) :: rest => if kh = k then rest else (kh, vh) :: mapDelete rest k

/-! ### Connection manager state (the `useRealtime` hook) -/

inductive ConnStatus where
  | disconnected
  | connecting
  | connected
  | reconnecting
  | error
deriving DecidableEq, Repr

/-- `UserPresence` (cursor/selection/metadata fields elided, never read here). -/
structure UserPresence where
  user_id : String
  team_id : String
  status : String
  last_seen : Nat
  current_page : Option String
deriving DecidableEq, Repr

/-- `Partial<UserPresence>`: a field that is `none` is absent from the object. -/
structure PartialPresence where
  user_id : Option String
  team_id : Option String
  status : Option String
  last_seen : Option Nat
  current_page : Option (Option String)
deriving DecidableEq, Repr

/-- The hook state: `connection` (status, reconnect_attempts, subscriptions,
error) merged with the refs `channelsRef` (name to callback-id map),
`heartbeatRef`, `reconnectTimeoutRef`, `presenceRef`, and the auth user.
`creations` / `teardowns` count physical channel objects created
(`supabase.channel(...)`) and destroyed (`channel.unsubscribe()`). -/
structure RTState where
  user : Option String
  status : ConnStatus
  err : Option String
  channels : List (String × List Nat)
  subscriptions : List String
  nextId : Nat
  creations : Nat
  teardowns : Nat
  heartbeat : Bool
  reconnectTimer : Bool
  reconnect_attempts : Nat
  presenceRef : Option UserPresence
deriving DecidableEq, Repr

/-- `updateConnectionStatus`: sets the status and overrides the error message
only when one is supplied (the `...(error && \x7b error \x7d)` spread). -/
def updateConnectionStatus (status : ConnStatus) (e : Option String) (s : RTState) : RTState :=
  { s with status := status, err := match e with | some m => some m | none => s.err }

/-- `getReconnectDelay`: exponential backoff capped at 30000 ms plus a random
jitter (the `Math.random() * 1000` value is passed in explicitly). -/
def getReconnectDelay (baseDelay : ℚ) (attempt : Nat) (jitter : ℚ) : ℚ :=
  min (baseDelay * 2 ^ attempt) 30000 + jitter

/-- `scheduleReconnect`: clears any pending retry timer; when
`reconnect_attempts` has reached the maximum it enters the terminal error
state, otherwise it marks the connection reconnecting and schedules one retry
timer (the delay value itself is not part of the state). -/
def scheduleReconnect (maxAttempts : Nat) (s : RTState) : RTState :=
  let s0 := { s with reconnectTimer := false }
  if s0.reconnect_attempts ≥ maxAttempts then
    updateConnectionStatus ConnStatus.error (some "Max reconnection attempts reached") s0
  else
    let s1 := updateConnectionStatus ConnStatus.reconnecting none s0
    { s1 with reconnectTimer := true }

/-- `connect` with the outcome of its connectivity probe supplied (`ok`).
On success: connected, heartbeat started, attempts reset. On failure: error
status with the probe message, then `scheduleReconnect`. The
`isConnectingRef` re-entrancy guard is elided (steps here are atomic). -/
def connectOutcome (maxAttempts : Nat) (ok : Bool) (failMsg : String) (s : RTState) : RTState :=
  if s.user = none then s
  else
    let s1 := updateConnectionStatus ConnStatus.connecting none s
    if ok then
      let s2 := updateConnectionStatus ConnStatus.connected none s1
      { s2 with heartbeat := true, reconnect_attempts := 0 }
    else
      scheduleReconnect maxAttempts (updateConnectionStatus ConnStatus.error (some failMsg) s1)

/-- The scheduled retry timer fires: the pending flag drops,
`reconnect_attempts` is incremented, and `connect` runs with outcome `ok`.
A no-op when no timer is pending. -/
def fireReconnectTimer (maxAttempts : Nat) (ok : Bool) (failMsg : String) (s : RTState) : RTState :=
  if s.reconnectTimer then
    connectOutcome maxAttempts ok failMsg
      { s with reconnectTimer := false, reconnect_attempts := s.reconnect_attempts + 1 }
  else s

/-- The freshly mounted hook state for an authenticated user `u`. -/
def initState (u : String) : RTState :=
  { user := some u, status := ConnStatus.disconnected, err := none, channels := [],
    subscriptions := [], nextId := 0, creations := 0, teardowns := 0, heartbeat := false,
    reconnectTimer := false, reconnect_attempts := 0, presenceRef := none }

/-- The state after `n` consecutive connection failures starting from a fresh
mount: failure 1 is the initial `connect()` failing, each further failure is
the pending retry timer firing and the retried `connect()` failing again. -/
def afterFailures (maxAttempts : Nat) (u failMsg : String) : Nat → RTState
  | 0 => initState u
  | 1 => connectOutcome maxAttempts false failMsg (initState u)
  | n + 2 => fireReconnectTimer maxAttempts false failMsg (afterFailures maxAttempts u failMsg (n + 1))

/-- `disconnect`: stop the heartbeat, cancel any pending reconnect timer,
unsubscribe every tracked physical channel, clear the channel map and the
subscription set, status to disconnected, reset `reconnect_attempts`. -/
def disconnect (s : RTState) : RTState :=
  { s with heartbeat := false,
           reconnectTimer := false,
           teardowns := s.teardowns + s.channels.length,
           channels := [],
           status := ConnStatus.disconnected,
           subscriptions := [],
           reconnect_attempts := 0 }

/-- `subscribe(channelName, callback)`: a silent no-op token when there is no
user or the connection is not `connected`; otherwise it creates the physical
channel on first use (counting a creation and recording the subscription
name) and registers a fresh callback id. Returns the state and the token the
returned unsubscribe closure captures (channel name and callback id). -/
def subscribe (s : RTState) (name : String) : RTState × Option (String × Nat) :=
  if s.user = none ∨ s.status ≠ ConnStatus.connected then (s, none)
  else
    match mapGet s.channels name with
    | some cbs =>
        let i := s.nextId
        ({ s with nextId := i + 1, channels := mapSet s.channels name (cbs ++ [i]) },
         some (name, i))
    | none =>
        let i := s.nextId
        let s1 := { s with creations := s.creations + 1,
                           channels := mapSet s.channels name [],
                           subscriptions := s.subscriptions ++ [name] }
        ({ s1 with nextId := i + 1, channels := mapSet s1.channels name [i] },
         some (name, i))

/-- Invoking an unsubscribe closure returned by `subscribe`: deletes that
caller's callback id; when the callback map becomes empty the physical
channel is torn down and its name dropped from the subscription set. The
no-op token (returned while not connected) does nothing. -/
def unsubInvoke (s : RTState) (tok : Option (String × Nat)) : RTState :=
  match tok with
  | none => s
  | some (name, i) =>
    match mapGet s.channels name with
    | none => s
    | some cbs =>
      let cbs1 := cbs.filter (fun j => j != i)
      if cbs1.length = 0 then
        { s with channels := mapDelete s.channels name,
                 subscriptions := s.subscriptions.filter (fun n => n != name),
                 teardowns := s.teardowns + 1 }
      else
        { s with channels := mapSet s.channels name cbs1 }

/-- `unsubscribe(channelName)`: the hard teardown regardless of remaining
callbacks. -/
def unsubscribe (s : RTState) (name : String) : RTState :=
  match mapGet s.channels name with
  | none => s
  | some _ =>
      { s with channels := mapDelete s.channels name,
               subscriptions := s.subscriptions.filter (fun n => n != name),
               teardowns := s.teardowns + 1 }

/-- The object literal `updatePresence` builds: defaults `user_id` (from the
auth user), `team_id := ""`, `status := "online"`, `last_seen := now`, then
the partial is spread over them, so any field present in the partial wins and
any field absent falls back — the previous `presenceRef` is not consulted. -/
def mkUpdatedPresence (uid : String) (p : PartialPresence) (now : Nat) : UserPresence :=
  { user_id := p.user_id.getD uid
    team_id := p.team_id.getD ""
    status := p.status.getD "online"
    last_seen := p.last_seen.getD now
    current_page := p.current_page.getD none }

/-- `updatePresence(partial)`: no-op without a user; otherwise stores the
rebuilt presence object in `presenceRef` (a pure, local assignment — the
`channel.track` re-announcements are network effects outside this state). -/
def updatePresence (s : RTState) (p : PartialPresence) (now : Nat) : RTState :=
  match s.user with
  | none => s
  | some uid => { s with presenceRef := some (mkUpdatedPresence uid p now) }

/-- A broadcast dispatched by `sendMessage` (`channel.send` payload). -/
structure BroadcastMsg where
  channel : String
  event : String
  payload : Int
deriving DecidableEq, Repr

/-- `sendMessage(channelName, event, payload)`: throws (rejects) with a
not-found error when the channel is not in the subscription map, otherwise
dispatches a broadcast on that channel. `Except.error` models the throw. -/
def sendMessage (s : RTState) (name event : String) (payload : Int) :
    Except String BroadcastMsg :=
  match mapGet s.channels name with
  | none => Except.error ("Channel " ++ name ++ " not found")
  | some _ => Except.ok { channel := name, event := event, payload := payload }

/-! ### Traces of subscribe / unsubscribe activity on one channel name -/

/-- An event on a fixed channel name: a `subscribe` call, or the invocation of
the unsubscribe closure whose callback id is `i`. -/
inductive ChanEv where
  | sub : ChanEv
  | unsub : Nat → ChanEv
deriving DecidableEq, Repr

def chanStep (c : String) (s : RTState) (e : ChanEv) : RTState :=
  match e with
  | ChanEv.sub => (subscribe s c).1
  | ChanEv.unsub i => unsubInvoke s (some (c, i))

def chanRun (c : String) (s : RTState) : List ChanEv → RTState
  | [] => s
  | e :: es => chanRun c (chanStep c s e) es

/-- The active-callback count of channel `c`: 0 when no entry exists. -/
def chanCount (c : String) (s : RTState) : Nat :=
  match mapGet s.channels c with
  | none => 0
  | some cbs => cbs.length

/-- Number of 0 to 1 transitions of the active-callback count along a trace. -/
def upTransitions (c : String) (s : RTState) : List ChanEv → Nat
  | [] => 0
  | e :: es =>
      let s1 := chanStep c s e
      (if chanCount c s = 0 ∧ chanCount c s1 = 1 then 1 else 0) + upTransitions c s1 es

/-- Number of 1 to 0 transitions of the active-callback count along a trace. -/
def downTransitions (c : String) (s : RTState) : List ChanEv → Nat
  | [] => 0
  | e :: es =>
      let s1 := chanStep c s e
      (if chanCount c s = 1 ∧ chanCount c s1 = 0 then 1 else 0) + downTransitions c s1 es

/-- A freshly connected state (the precondition of the reference-counting
claim: the calls happen while connected). -/
def connectedInit (u : String) : RTState :=
  { initState u with status := ConnStatus.connected }

/-- Invariant of single-channel traces: authenticated, connected, and the
channel map is empty or holds exactly the one entry for `c`, whose callback
ids are nonempty, distinct, and below the fresh-id counter. -/
def ChanInv (c : String) (s : RTState) : Prop :=
  s.user ≠ none ∧ s.status = ConnStatus.connected ∧
  (s.channels = [] ∨
    ∃ cbs, s.channels = [(c, cbs)] ∧ cbs ≠ [] ∧ cbs.Nodup ∧ ∀ i ∈ cbs, i < s.nextId)

/-- The callback ids registered for channel `c`. -/
def callbacksOf (s : RTState) (c : String) : List Nat :=
  (mapGet s.channels c).getD []

/-! ### Team collaboration data store (the `useTeamCollaboration` hook) -/

/-- A `team_invites` row. `max_uses` is a nullable integer column. -/
structure Invite where
  id : Nat
  team_id : Nat
  invite_code : String
  created_by : Nat
  expires_at : Int
  max_uses : Option Nat
  current_uses : Nat
  is_active : Bool
deriving DecidableEq, Repr

/-- A `teams` row (only the fields this subsystem reads); `settings` is a
JSON object given as its top-level key/value pairs. -/
structure Team where
  id : Nat
  max_members : Nat
  settings : List (String × Int)
deriving DecidableEq, Repr

/-- A `team_members` row. -/
structure TeamMember where
  id : Nat
  team_id : Nat
  user_id : Nat
  role : String
  is_active : Bool
deriving DecidableEq, Repr

/-- A metadata value in an activity log entry. -/
inductive MetaV where
  | str : String → MetaV
  | strList : List String → MetaV
deriving DecidableEq, Repr

/-- A `team_activities` row. -/
structure TeamActivity where
  team_id : Nat
  user_id : Nat
  action : String
  resource_type : String
  resource_id : Nat
  metadata : List (String × MetaV)
deriving DecidableEq, Repr

/-- The external data store as the hook sees it. `nextMemberId` supplies the
generated primary key of the next inserted membership row. -/
structure Store where
  invites : List Invite
  teams : List Team
  members : List TeamMember
  activities : List TeamActivity
  nextMemberId : Nat
deriving DecidableEq, Repr

/-- `.single()`: the data is the row when the query matched exactly one row,
null (with an error) otherwise. -/
def singleRow {α : Type} (rows : List α) : Option α :=
  match rows with
  | [row] => some row
  | _ => none

/-- The result shape of `joinTeam`. -/
structure JoinTeamResponse where
  success : Bool
  error : Option String
  team : Option Team
  member : Option TeamMember
deriving DecidableEq, Repr

/-- A structured `joinTeam` failure. -/
def failResp (msg : String) : JoinTeamResponse :=
  { success := false, error := some msg, team := none, member := none }

/-- `markActivity(action, resourceType, resourceId, metadata)`: appends one
activity row stamped with the hook's `teamId` prop and the auth user; a no-op
when either is missing (falsy). Insert failures are swallowed. -/
def markActivity (user : Option Nat) (teamId : Option Nat) (action : String)
    (resourceType : String) (resourceId : Nat) (metadata : List (String × MetaV))
    (st : Store) : Store :=
  match user, teamId with
  | some uid, some tid =>
      { st with activities := st.activities ++
          [{ team_id := tid, user_id := uid, action := action,
             resource_type := resourceType, resource_id := resourceId,
             metadata := metadata }] }
  | _, _ => st

/-- `inviteCode.toUpperCase()`: character-wise uppercase. -/
def strToUpper (s : String) : String :=
  String.mk (s.data.map Char.toUpper)

/-- The invite lookup of `joinTeam`: rows of `team_invites` whose code equals
the uppercased input and which are active, passed through `.single()`. -/
def lookupInvite (st : Store) (code : String) : Option Invite :=
  singleRow (st.invites.filter (fun i => i.invite_code == strToUpper code && i.is_active))

/-- JS truthiness of the nullable `max_uses` column: null and 0 are falsy. -/
def maxUsesTruthy (mu : Option Nat) : Bool :=
  match mu with
  | none => false
  | some 0 => false
  | some (_ + 1) => true

/-- The tail of `joinTeam` once all validations passed: insert the membership
row (subject to the UNIQUE(team_id, user_id) constraint of the table), bump
the invite's `current_uses` to the previously read value plus one, log
`member_joined`, and return the invite's team and the new row. -/
def joinInsert (uid : Nat) (teamIdProp : Option Nat) (inviteCode : String)
    (inv : Invite) (invTeam : Option Team) (st : Store) : JoinTeamResponse × Store :=
  if st.members.any (fun m => m.team_id == inv.team_id && m.user_id == uid) then
    (failResp "duplicate key value violates unique constraint", st)
  else
    let newMem : TeamMember :=
      { id := st.nextMemberId, team_id := inv.team_id, user_id := uid,
        role := "member", is_active := true }
    let st1 := { st with members := st.members ++ [newMem],
                         nextMemberId := st.nextMemberId + 1 }
    let st2 := { st1 with invites := st1.invites.map (fun i =>
                    if i.id == inv.id then { i with current_uses := inv.current_uses + 1 }
                    else i) }
    let st3 := markActivity (some uid) teamIdProp "member_joined" "team" inv.team_id
                  [("invite_code", MetaV.str inviteCode)] st2
    ({ success := true, error := none, team := invTeam, member := some newMem }, st3)

/-- `joinTeam(inviteCode)` of the hook mounted for `teamIdProp`, at time
`now`. Validation order as in the source: auth, invite lookup, expiry,
max-uses (guarded by JS truthiness of `max_uses`), existing-membership check
(note: filtered by team and user only, not by `is_active`), then the member
capacity check whose team-row access is guarded by the count being truthy
(a zero count short-circuits). A null embedded team reached by that access
throws and lands in the catch-all. -/
def joinTeam (user : Option Nat) (teamIdProp : Option Nat) (inviteCode : String)
    (now : Int) (st : Store) : JoinTeamResponse × Store :=
  match user with
  | none => (failResp "Authentication required", st)
  | some uid =>
    match lookupInvite st inviteCode with
    | none => (failResp "Invalid or expired invite code", st)
    | some inv =>
      if inv.expires_at < now then (failResp "Invite code has expired", st)
      else if maxUsesTruthy inv.max_uses && decide (inv.max_uses.getD 0 ≤ inv.current_uses) then
        (failResp "Invite code has reached maximum uses", st)
      else
        match singleRow (st.members.filter (fun m =>
                m.team_id == inv.team_id && m.user_id == uid)) with
        | some _ => (failResp "You are already a member of this team", st)
        | none =>
          let invTeam := st.teams.find? (fun t => t.id == inv.team_id)
          let memberCount := (st.members.filter (fun m =>
                m.team_id == inv.team_id && m.is_active)).length
          if memberCount ≠ 0 then
            match invTeam with
            | none => (failResp "Failed to join team", st)
            | some t =>
              if memberCount ≥ t.max_members then
                (failResp "Team has reached maximum member limit", st)
              else joinInsert uid teamIdProp inviteCode inv invTeam st
          else joinInsert uid teamIdProp inviteCode inv invTeam st

/-- `updateTeamSettings(settings)`: permission check on the caller's
membership row (role owner or admin), then `update(\x7b settings \x7d)` — the
settings column of the team row is replaced by the partial object — and a
`team_settings_updated` activity whose metadata holds the top-level keys of
the partial and nothing else. -/
def updateTeamSettings (user : Option Nat) (teamId : Option Nat)
    (settings : List (String × Int)) (st : Store) : Bool × Store :=
  match user, teamId with
  | some uid, some tid =>
    match singleRow (st.members.filter (fun m => m.team_id == tid && m.user_id == uid)) with
    | some cm =>
      if cm.role == "owner" || cm.role == "admin" then
        let st1 := { st with teams := st.teams.map (fun t =>
                        if t.id == tid then { t with settings := settings } else t) }
        let st2 := markActivity user teamId "team_settings_updated" "team" tid
                      [("updated_settings", MetaV.strList (settings.map Prod.fst))] st1
        (true, st2)
      else (false, st)
    | none => (false, st)
  | _, _ => (false, st)

/-- Modelled from the spec for the refinement comparison of the settings
claim: the merge of the existing settings JSON with the partial — keys absent
from the partial keep their previous values, new keys are appended. The
source does not compute this. -/
def mergeSettingsSpec (old part : List (String × Int)) : List (String × Int) :=
  old.map (fun kv =>
      match part.find? (fun kv2 => kv2.1 == kv.1) with
      | some kv2 => (kv.1, kv2.2)
      | none => kv)
    ++ part.filter (fun kv2 => !(old.any (fun kv => kv.1 == kv2.1)))

/-! ### Concrete instances used by counterexamples and witnesses -/

/-- A presence object as left by an earlier `updatePresence` call that set
`current_page`. -/
def presencePrior : UserPresence :=
  { user_id := "u", team_id := "t1", status := "online", last_seen := 5,
    current_page := some "/board" }

/-- A connected state remembering `presencePrior` locally. -/
def rtWithPresence : RTState :=
  { connectedInit "u" with presenceRef := some presencePrior }

/-- A later partial presence carrying only a status change. -/
def partialAway : PartialPresence :=
  { user_id := none, team_id := none, status := some "away", last_seen := none,
    current_page := none }

/-- The connected state after two `subscribe` calls on channel "room"
(callback ids 0 and 1 are both live). -/
def twoSubsState : RTState :=
  (subscribe (subscribe (connectedInit "u") "room").1 "room").1

/-- An invite whose nullable `max_uses` is 0, so `current_uses` (0) has
reached it. -/
def inviteZeroMax : Invite :=
  { id := 1, team_id := 1, invite_code := "ABCD1234", created_by := 2,
    expires_at := 100, max_uses := some 0, current_uses := 0, is_active := true }

def storeZeroMax : Store :=
  { invites := [inviteZeroMax], teams := [{ id := 1, max_members := 3, settings := [] }],
    members := [], activities := [], nextMemberId := 1 }

/-- A single-use invite that has been used once. -/
def inviteExhausted : Invite :=
  { id := 1, team_id := 1, invite_code := "EFGH5678", created_by := 2,
    expires_at := 100, max_uses := some 1, current_uses := 1, is_active := true }

def storeExhausted : Store :=
  { invites := [inviteExhausted], teams := [{ id := 1, max_members := 3, settings := [] }],
    members := [], activities := [], nextMemberId := 1 }

/-- A valid invite into team 1. -/
def inviteRejoin : Invite :=
  { id := 1, team_id := 1, invite_code := "WXYZ1234", created_by := 2,
    expires_at := 100, max_uses := some 5, current_uses := 0, is_active := true }

/-- A soft-removed membership row of user 7 in team 1. -/
def inactiveMember : TeamMember :=
  { id := 3, team_id := 1, user_id := 7, role := "member", is_active := false }

def storeRejoin : Store :=
  { invites := [inviteRejoin], teams := [{ id := 1, max_members := 3, settings := [] }],
    members := [inactiveMember], activities := [], nextMemberId := 4 }

/-- A state with a pending reconnect timer. -/
def rtTimerPending : RTState :=
  { initState "u" with reconnectTimer := true }

/-- A team whose settings JSON currently holds two keys. -/
def teamAB : Team := { id := 1, max_members := 3, settings := [("a", 1), ("b", 2)] }

def ownerMem : TeamMember :=
  { id := 1, team_id := 1, user_id := 5, role := "owner", is_active := true }

def storeAB : Store :=
  { invites := [], teams := [teamAB], members := [ownerMem], activities := [],
    nextMemberId := 2 }

end Navigator

namespace Navigator

/-! ### C4: reconnect delay bounds and monotonicity -/

/-- C4: for every attempt number and every jitter value in [0, 1000), the
delay computed by `getReconnectDelay` lies in
[min(base·2^attempt, 30000), min(base·2^attempt, 30000) + 1000], and the
jitter-free part min(base·2^attempt, 30000) is monotonically non-decreasing
in the attempt number. -/
theorem c4_reconnect_delay_bounds (base jitter : ℚ) (a b : Nat)
    (hbase : 0 ≤ base) (hj0 : 0 ≤ jitter) (hj1 : jitter < 1000) (hab : a ≤ b) :
    min (base * 2 ^ a) 30000 ≤ getReconnectDelay base a jitter ∧
    getReconnectDelay base a jitter ≤ min (base * 2 ^ a) 30000 + 1000 ∧
    min (base * 2 ^ a) 30000 ≤ min (base * 2 ^ b) 30000 := by
  refine ⟨?_, ?_, ?_⟩
  · simp only [getReconnectDelay]
    exact le_add_of_nonneg_right hj0
  · simp only [getReconnectDelay]
    exact add_le_add_left hj1.le _
  · refine min_le_min ?_ le_rfl
    exact mul_le_mul_of_nonneg_left (pow_le_pow_right₀ (by norm_num) hab) hbase

/-- Witness for C4 at base 1000, jitter 500, attempts 2 and 5. -/
theorem c4_reconnect_delay_bounds_witness :
    min ((1000 : ℚ) * 2 ^ 2) 30000 ≤ getReconnectDelay 1000 2 500 ∧
    getReconnectDelay 1000 2 500 ≤ min ((1000 : ℚ) * 2 ^ 2) 30000 + 1000 ∧
    min ((1000 : ℚ) * 2 ^ 2) 30000 ≤ min ((1000 : ℚ) * 2 ^ 5) 30000 :=
  c4_reconnect_delay_bounds 1000 500 2 5 (by norm_num) (by norm_num) (by norm_num)
    (by norm_num)

/-! ### C5: disconnect is a safe, idempotent teardown -/

/-- C5: from any state, `disconnect` stops the heartbeat, cancels any pending
reconnect timer, tears down every tracked channel (one physical unsubscribe
per entry), empties the channel map and the subscription set, sets the status
to disconnected and resets the attempt counter; a second call immediately
afterwards leaves the state unchanged. The embedding is a total function, so
neither call can throw. -/
theorem c5_disconnect_idempotent (s : RTState) :
    (disconnect s).status = ConnStatus.disconnected ∧
    (disconnect s).heartbeat = false ∧
    (disconnect s).reconnectTimer = false ∧
    (disconnect s).channels = [] ∧
    (disconnect s).subscriptions = [] ∧
    (disconnect s).reconnect_attempts = 0 ∧
    (disconnect s).teardowns = s.teardowns + s.channels.length ∧
    disconnect (disconnect s) = disconnect s := by
  refine ⟨rfl, rfl, rfl, rfl, rfl, rfl, rfl, ?_⟩
  simp [disconnect]

/-! ### C9: sendMessage on an unknown channel throws -/

/-- C9: `sendMessage` rejects with the not-found error (a thrown error,
modelled by `Except.error`, unlike the structured failure records used for
permission and validation errors) exactly when the channel name is absent
from the subscription map, and no broadcast is produced in that case; on a
subscribed channel it dispatches the broadcast carrying the event and
payload. -/
theorem c9_sendMessage_not_found (s : RTState) (name event : String) (p : Int) :
    (mapGet s.channels name = none →
      sendMessage s name event p =
        Except.error ("Channel " ++ name ++ " not found")) ∧
    (∀ cbs, mapGet s.channels name = some cbs →
      sendMessage s name event p =
        Except.ok { channel := name, event := event, payload := p }) := by
  constructor
  · intro h
    simp [sendMessage, h]
  · intro cbs h
    simp [sendMessage, h]

/-- Witness for C9: a not-yet-subscribed channel rejects, a subscribed one
broadcasts. -/
theorem c9_sendMessage_not_found_witness :
    sendMessage (connectedInit "u") "room" "ping" 0 =
      Except.error ("Channel " ++ "room" ++ " not found") ∧
    sendMessage (subscribe (connectedInit "u") "room").1 "room" "ping" 0 =
      Except.ok { channel := "room", event := "ping", payload := 0 } :=
  ⟨(c9_sendMessage_not_found (connectedInit "u") "room" "ping" 0).1 (by decide),
   (c9_sendMessage_not_found (subscribe (connectedInit "u") "room").1 "room" "ping" 0).2
      [0] (by decide)⟩

/-! ### C6: updatePresence does not merge with the last-known presence -/

/-- C6 counterexample: the prior local presence has `current_page = "/board"`
and `team_id = "t1"`; a later `updatePresence` whose partial carries only
`status` produces a presence whose `current_page` is gone and whose `team_id`
is the empty-string default — fields set by the earlier call and absent from
the new partial are NOT preserved, refuting the merge-with-last-known claim. -/
theorem c6_updatePresence_cex :
    rtWithPresence.presenceRef.map UserPresence.current_page = some (some "/board") ∧
    rtWithPresence.presenceRef.map UserPresence.team_id = some "t1" ∧
    (updatePresence rtWithPresence partialAway 10).presenceRef =
      some { user_id := "u", team_id := "", status := "away", last_seen := 10,
             current_page := none } := by decide

/-- C6 amended: `updatePresence` builds the new local presence from the
partial alone — defaults user_id from the auth user, team_id empty, status
"online", last_seen now for absent fields — independently of the previous
presence object (fields absent from the partial are reset to defaults, not
preserved); the update is a pure local assignment touching neither the
channel map nor the connection status (no network round trip). -/
theorem c6_updatePresence_amended (s sOther : RTState) (p : PartialPresence)
    (now : Nat) (uid : String) (h : s.user = some uid) (hOther : sOther.user = some uid) :
    (updatePresence s p now).presenceRef = some (mkUpdatedPresence uid p now) ∧
    (updatePresence s p now).presenceRef = (updatePresence sOther p now).presenceRef ∧
    (mkUpdatedPresence uid p now).user_id = p.user_id.getD uid ∧
    (mkUpdatedPresence uid p now).team_id = p.team_id.getD "" ∧
    (mkUpdatedPresence uid p now).status = p.status.getD "online" ∧
    (mkUpdatedPresence uid p now).last_seen = p.last_seen.getD now ∧
    (mkUpdatedPresence uid p now).current_page = p.current_page.getD none ∧
    (updatePresence s p now).status = s.status ∧
    (updatePresence s p now).channels = s.channels := by
  simp [updatePresence, h, hOther, mkUpdatedPresence]

/-- Witness for the amended C6 at the concrete prior-presence state. -/
theorem c6_updatePresence_amended_witness :
    (updatePresence rtWithPresence partialAway 10).presenceRef =
      some (mkUpdatedPresence "u" partialAway 10) ∧
    (updatePresence rtWithPresence partialAway 10).presenceRef =
      (updatePresence (connectedInit "u") partialAway 10).presenceRef ∧
    (mkUpdatedPresence "u" partialAway 10).user_id = partialAway.user_id.getD "u" ∧
    (mkUpdatedPresence "u" partialAway 10).team_id = partialAway.team_id.getD "" ∧
    (mkUpdatedPresence "u" partialAway 10).status = partialAway.status.getD "online" ∧
    (mkUpdatedPresence "u" partialAway 10).last_seen = partialAway.last_seen.getD 10 ∧
    (mkUpdatedPresence "u" partialAway 10).current_page = partialAway.current_page.getD none ∧
    (updatePresence rtWithPresence partialAway 10).status = rtWithPresence.status ∧
    (updatePresence rtWithPresence partialAway 10).channels = rtWithPresence.channels :=
  c6_updatePresence_amended rtWithPresence (connectedInit "u") partialAway 10 "u"
    (by decide) (by decide)

/-! ### C2: the max-uses check is skipped for falsy max_uses -/

/-- C2 counterexample: an active, unexpired invite whose `current_uses` (0)
has reached its `max_uses` (0). Because the source guards the max-uses check
with JS truthiness of `max_uses` (`if (inviteData.max_uses && ...)`), the
check is skipped and `joinTeam` succeeds, inserting a membership row —
refuting the claim that it always fails with the maximum-uses error and
performs no insert. -/
theorem c2_join_max_uses_cex :
    inviteZeroMax.max_uses.getD 0 ≤ inviteZeroMax.current_uses ∧
    (joinTeam (some 7) (some 1) "ABCD1234" 0 storeZeroMax).1.success = true ∧
    (joinTeam (some 7) (some 1) "ABCD1234" 0 storeZeroMax).2.members.length =
      storeZeroMax.members.length + 1 := by decide

/-- C2 amended: for every invite that is found active, is not expired, and
whose `max_uses` is a positive (truthy) value already reached by
`current_uses`, `joinTeam` returns the maximum-uses failure and leaves the
store untouched (no membership insert, no `current_uses` update, no activity
row). -/
theorem c2_join_max_uses_amended (st : Store) (uid : Nat) (tid : Option Nat)
    (code : String) (now : Int) (inv : Invite) (m : Nat)
    (hlook : lookupInvite st code = some inv)
    (hexp : ¬ inv.expires_at < now)
    (hmu : inv.max_uses = some m) (hm : 0 < m) (hused : m ≤ inv.current_uses) :
    joinTeam (some uid) tid code now st =
      (failResp "Invite code has reached maximum uses", st) := by
  have hcond : (maxUsesTruthy inv.max_uses &&
      decide (inv.max_uses.getD 0 ≤ inv.current_uses)) = true := by
    obtain ⟨k, rfl⟩ : ∃ k, m = k + 1 := ⟨m - 1, (Nat.succ_pred_eq_of_pos hm).symm⟩
    simp [hmu, maxUsesTruthy, hused]
  simp [joinTeam, hlook, if_neg hexp, hcond]

/-- Witness for the amended C2: a used-up single-use invite is refused and
the store is unchanged. -/
theorem c2_join_max_uses_amended_witness :
    joinTeam (some 7) (some 1) "EFGH5678" 0 storeExhausted =
      (failResp "Invite code has reached maximum uses", storeExhausted) :=
  c2_join_max_uses_amended storeExhausted 7 (some 1) "EFGH5678" 0 inviteExhausted 1
    (by decide) (by decide) (by decide) (by decide) (by decide)

/-! ### C7: the already-a-member check also matches inactive rows -/

theorem joinInsert_error_cases (uid : Nat) (tid : Option Nat) (code : String)
    (inv : Invite) (t : Option Team) (st : Store) :
    (joinInsert uid tid code inv t st).1.error =
        some "duplicate key value violates unique constraint" ∨
    (joinInsert uid tid code inv t st).1.error = none := by
  by_cases h : (st.members.any (fun m => m.team_id == inv.team_id && m.user_id == uid)) = true
  · left
    simp [joinInsert, h, failResp]
  · right
    simp [joinInsert, h]

theorem join_already (st : Store) (uid : Nat) (tid : Option Nat) (code : String)
    (now : Int) (inv : Invite) (mem : TeamMember)
    (hlook : lookupInvite st code = some inv)
    (hexp : ¬ inv.expires_at < now)
    (huses : (maxUsesTruthy inv.max_uses &&
        decide (inv.max_uses.getD 0 ≤ inv.current_uses)) = false)
    (hsr : singleRow (st.members.filter (fun m =>
        m.team_id == inv.team_id && m.user_id == uid)) = some mem) :
    joinTeam (some uid) tid code now st =
      (failResp "You are already a member of this team", st) := by
  simp [joinTeam, hlook, if_neg hexp, huses, hsr]

theorem join_not_already (st : Store) (uid : Nat) (tid : Option Nat) (code : String)
    (now : Int) (inv : Invite)
    (hlook : lookupInvite st code = some inv)
    (hexp : ¬ inv.expires_at < now)
    (huses : (maxUsesTruthy inv.max_uses &&
        decide (inv.max_uses.getD 0 ≤ inv.current_uses)) = false)
    (hsr : singleRow (st.members.filter (fun m =>
        m.team_id == inv.team_id && m.user_id == uid)) = none) :
    (joinTeam (some uid) tid code now st).1.error ≠
      some "You are already a member of this team" := by
  intro herr
  simp only [joinTeam, hlook, if_neg hexp, huses, Bool.false_eq_true, if_false, hsr] at herr
  split at herr
  · split at herr
    · simp [failResp] at herr
    · split at herr
      · simp [failResp] at herr
      · rcases joinInsert_error_cases uid tid code inv
            (st.teams.find? (fun t => t.id == inv.team_id)) st with hd | hd <;>
          rw [hd] at herr <;> simp at herr
  · rcases joinInsert_error_cases uid tid code inv
        (st.teams.find? (fun t => t.id == inv.team_id)) st with hd | hd <;>
      rw [hd] at herr <;> simp at herr

/-- C7 counterexample: user 7's only membership row in team 1 is inactive
(soft-removed), yet `joinTeam` with a valid invite into team 1 fails with the
already-a-member error — the membership query filters by team and user only,
not by `is_active`, refuting the claim that an inactive-only member passes
this validation step. -/
theorem c7_join_member_check_cex :
    (storeRejoin.members.all (fun m => !m.is_active)) = true ∧
    (joinTeam (some 7) (some 1) "WXYZ1234" 0 storeRejoin).1 =
      failResp "You are already a member of this team" := by decide

/-- C7 amended: past the invite validations, `joinTeam` fails with the
already-a-member error if and only if the caller has exactly one membership
row in the invite's team, active or inactive — a soft-removed row also
triggers the error — and in that case the store is left unchanged. -/
theorem c7_join_member_check_amended (st : Store) (uid : Nat) (tid : Option Nat)
    (code : String) (now : Int) (inv : Invite)
    (hlook : lookupInvite st code = some inv)
    (hexp : ¬ inv.expires_at < now)
    (huses : (maxUsesTruthy inv.max_uses &&
        decide (inv.max_uses.getD 0 ≤ inv.current_uses)) = false) :
    ((joinTeam (some uid) tid code now st).1.error =
        some "You are already a member of this team" ↔
      (singleRow (st.members.filter (fun m =>
          m.team_id == inv.team_id && m.user_id == uid))).isSome = true) ∧
    (∀ mem, singleRow (st.members.filter (fun m =>
        m.team_id == inv.team_id && m.user_id == uid)) = some mem →
      joinTeam (some uid) tid code now st =
        (failResp "You are already a member of this team", st)) := by
  constructor
  · rcases hsr : singleRow (st.members.filter (fun m =>
        m.team_id == inv.team_id && m.user_id == uid)) with _ | mem
    · rw [hsr]
      simp only [Option.isSome_none, Bool.false_eq_true, iff_false]
      exact join_not_already st uid tid code now inv hlook hexp huses hsr
    · rw [hsr]
      simp only [Option.isSome_some, iff_true]
      rw [join_already st uid tid code now inv mem hlook hexp huses hsr]
      rfl
  · intro mem hsr
    exact join_already st uid tid code now inv mem hlook hexp huses hsr

/-- Witness for the amended C7 at the inactive-membership store. -/
theorem c7_join_member_check_amended_witness :
    (((joinTeam (some 7) (some 1) "WXYZ1234" 0 storeRejoin).1.error =
        some "You are already a member of this team" ↔
      (singleRow (storeRejoin.members.filter (fun m =>
          m.team_id == inviteRejoin.team_id && m.user_id == 7))).isSome = true) ∧
     (∀ mem, singleRow (storeRejoin.members.filter (fun m =>
        m.team_id == inviteRejoin.team_id && m.user_id == 7)) = some mem →
      joinTeam (some 7) (some 1) "WXYZ1234" 0 storeRejoin =
        (failResp "You are already a member of this team", storeRejoin))) :=
  c7_join_member_check_amended storeRejoin 7 (some 1) "WXYZ1234" 0 inviteRejoin
    (by decide) (by decide) (by decide)

/-! ### C8: updateTeamSettings replaces the settings JSON -/

/-- C8 counterexample: the team's settings hold keys a and b; an owner updates
with the partial `[(a, 3)]`. The persisted settings are exactly the partial —
key b is gone — whereas the merge the claim describes would keep it,
refuting the merged-persist claim. -/
theorem c8_update_settings_cex :
    (updateTeamSettings (some 5) (some 1) [("a", 3)] storeAB).2.teams.map Team.settings =
      [[("a", 3)]] ∧
    mergeSettingsSpec teamAB.settings [("a", 3)] = [("a", 3), ("b", 2)] ∧
    ¬ ([[("a", 3)]] : List (List (String × Int))) = [[("a", 3), ("b", 2)]] := by decide

/-- C8 amended: for a caller whose membership row has role owner or admin,
`updateTeamSettings` persists the partial settings object verbatim as the new
settings of the team (keys absent from the partial are dropped, not merged),
returns success, and appends one `team_settings_updated` activity whose
metadata holds exactly the list of top-level keys of the partial and none of
their values. -/
theorem c8_update_settings_amended (st : Store) (uid tid : Nat)
    (settings : List (String × Int)) (cm : TeamMember)
    (hcm : singleRow (st.members.filter (fun m =>
        m.team_id == tid && m.user_id == uid)) = some cm)
    (hrole : cm.role = "owner" ∨ cm.role = "admin") :
    (updateTeamSettings (some uid) (some tid) settings st).1 = true ∧
    (∀ t, t ∈ (updateTeamSettings (some uid) (some tid) settings st).2.teams →
        t.id = tid → t.settings = settings) ∧
    (updateTeamSettings (some uid) (some tid) settings st).2.activities =
      st.activities ++
        [{ team_id := tid, user_id := uid, action := "team_settings_updated",
           resource_type := "team", resource_id := tid,
           metadata := [("updated_settings", MetaV.strList (settings.map Prod.fst))] }] := by
  have hb : (cm.role == "owner" || cm.role == "admin") = true := by
    rcases hrole with h | h <;> simp [h]
  refine ⟨?_, ?_, ?_⟩
  · simp [updateTeamSettings, hcm, hb, markActivity]
  · intro t ht htid
    simp only [updateTeamSettings, hcm, hb, markActivity, if_true] at ht
    rcases List.mem_map.1 ht with ⟨t0, _, rfl⟩
    by_cases h0 : (t0.id == tid) = true
    · simp [h0]
    · rw [if_neg h0] at htid
      exact absurd (beq_iff_eq.mpr htid) h0
  · simp [updateTeamSettings, hcm, hb, markActivity]

/-- Witness for the amended C8 at the two-key settings store. -/
theorem c8_update_settings_amended_witness :
    ((updateTeamSettings (some 5) (some 1) [("a", 3)] storeAB).1 = true ∧
    (∀ t, t ∈ (updateTeamSettings (some 5) (some 1) [("a", 3)] storeAB).2.teams →
        t.id = 1 → t.settings = [("a", 3)]) ∧
    (updateTeamSettings (some 5) (some 1) [("a", 3)] storeAB).2.activities =
      storeAB.activities ++
        [{ team_id := 1, user_id := 5, action := "team_settings_updated",
           resource_type := "team", resource_id := 1,
           metadata := [("updated_settings",
              MetaV.strList (([("a", 3)] : List (String × Int)).map Prod.fst))] }]) :=
  c8_update_settings_amended storeAB 5 1 [("a", 3)] ownerMem (by decide) (Or.inl (by decide))

/-! ### C3: the retry cap fires one failure later than claimed -/

theorem scheduleReconnect_attempts (m : Nat) (s : RTState) :
    (scheduleReconnect m s).reconnect_attempts = s.reconnect_attempts := by
  simp only [scheduleReconnect, updateConnectionStatus]
  split <;> rfl

theorem connectOutcome_fail_attempts (m : Nat) (msg : String) (s : RTState) :
    (connectOutcome m false msg s).reconnect_attempts = s.reconnect_attempts := by
  unfold connectOutcome
  by_cases hu : s.user = none
  · rw [if_pos hu]
  · rw [if_neg hu]
    split
    · next hcontra => exact absurd hcontra (by simp)
    · rw [scheduleReconnect_attempts]
      rfl

theorem afterFailures_mid (maxAttempts : Nat) (u msg : String) :
    ∀ n, n + 1 ≤ maxAttempts →
      afterFailures maxAttempts u msg (n + 1) =
        { initState u with status := ConnStatus.reconnecting, err := some msg,
                           reconnectTimer := true, reconnect_attempts := n } := by
  intro n
  induction n with
  | zero =>
    intro h
    have hc : ¬ (0 ≥ maxAttempts) := by omega
    simp [afterFailures, connectOutcome, updateConnectionStatus, scheduleReconnect,
      initState, hc]
  | succ n ih =>
    intro h
    have ih2 := ih (by omega)
    have hc : ¬ (n + 1 ≥ maxAttempts) := by omega
    show afterFailures maxAttempts u msg (n + 2) = _
    rw [afterFailures, ih2]
    simp [fireReconnectTimer, connectOutcome, updateConnectionStatus, scheduleReconnect,
      initState, hc]

/-- C3 counterexample: a run of exactly `maxReconnectAttempts = 10`
consecutive connection failures (the initial attempt plus nine failed
scheduled retries). The status is still `reconnecting`, a further retry timer
IS pending, and the counter is 9 — not the terminal error state the claim
asserts after 10 consecutive failures. -/
theorem c3_reconnect_cap_cex :
    (afterFailures 10 "u" "probe failed" 10).status = ConnStatus.reconnecting ∧
    (afterFailures 10 "u" "probe failed" 10).reconnectTimer = true ∧
    (afterFailures 10 "u" "probe failed" 10).reconnect_attempts = 9 := by decide

/-- C3 amended: the terminal error state with no scheduled retry timer is
reached after `maxReconnectAttempts + 1` consecutive connection failures —
the initial attempt plus `maxReconnectAttempts` failed scheduled retries
(equivalently, when a failure occurs with `reconnect_attempts` already at the
maximum); the second half of the claim stands: `reconnect_attempts` is
never changed by scheduling a retry and is incremented exactly when a pending
retry timer fires. -/
theorem c3_reconnect_cap_amended (maxAttempts : Nat) (u msg : String) :
    ((afterFailures maxAttempts u msg (maxAttempts + 1)).status = ConnStatus.error ∧
     (afterFailures maxAttempts u msg (maxAttempts + 1)).reconnectTimer = false ∧
     (afterFailures maxAttempts u msg (maxAttempts + 1)).reconnect_attempts = maxAttempts) ∧
    (∀ s : RTState, (scheduleReconnect maxAttempts s).reconnect_attempts =
        s.reconnect_attempts) ∧
    (∀ (s : RTState) (m2 : String), s.reconnectTimer = true →
       (fireReconnectTimer maxAttempts false m2 s).reconnect_attempts =
         s.reconnect_attempts + 1) ∧
    (∀ (s : RTState) (ok : Bool) (m2 : String), s.reconnectTimer = false →
       fireReconnectTimer maxAttempts ok m2 s = s) := by
  refine ⟨?_, ?_, ?_, ?_⟩
  · rcases maxAttempts with _ | k
    · simp [afterFailures, connectOutcome, updateConnectionStatus, scheduleReconnect,
        initState]
    · have hmid := afterFailures_mid (k + 1) u msg k (by omega)
      show (afterFailures (k + 1) u msg (k + 2)).status = ConnStatus.error ∧ _
      rw [afterFailures, hmid]
      simp [fireReconnectTimer, connectOutcome, updateConnectionStatus, scheduleReconnect,
        initState]
  · intro s
    exact scheduleReconnect_attempts maxAttempts s
  · intro s m2 hp
    have hfire : fireReconnectTimer maxAttempts false m2 s =
        connectOutcome maxAttempts false m2
          { s with reconnectTimer := false,
                   reconnect_attempts := s.reconnect_attempts + 1 } := by
      unfold fireReconnectTimer
      rw [if_pos hp]
    rw [hfire, connectOutcome_fail_attempts]
  · intro s ok m2 hp
    unfold fireReconnectTimer
    rw [if_neg (by simp [hp])]

/-- Witness for the amended C3 at `maxReconnectAttempts = 2`. -/
theorem c3_reconnect_cap_amended_witness :
    ((afterFailures 2 "u" "probe failed" 3).status = ConnStatus.error ∧
     (afterFailures 2 "u" "probe failed" 3).reconnectTimer = false ∧
     (afterFailures 2 "u" "probe failed" 3).reconnect_attempts = 2) ∧
    (scheduleReconnect 2 (initState "u")).reconnect_attempts =
      (initState "u").reconnect_attempts ∧
    (fireReconnectTimer 2 false "x" rtTimerPending).reconnect_attempts =
      rtTimerPending.reconnect_attempts + 1 ∧
    fireReconnectTimer 2 true "x" (initState "u") = initState "u" := by
  obtain ⟨h1, h2, h3, h4⟩ := c3_reconnect_cap_amended 2 "u" "probe failed"
  exact ⟨h1, h2 (initState "u"), h3 rtTimerPending "x" (by decide),
    h4 (initState "u") true "x" (by decide)⟩

/-! ### Lemmas about the channel map -/

theorem mapGet_eq_none (m : List (String × List Nat)) (k : String)
    (h : k ∉ m.map Prod.fst) : mapGet m k = none := by
  induction m with
  | nil => rfl
  | cons hd tl ih =>
    obtain ⟨kh, vh⟩ := hd
    simp only [List.map_cons, List.mem_cons] at h
    push_neg at h
    simp only [mapGet]
    rw [if_neg (fun he => h.1 he.symm)]
    exact ih h.2

theorem mapGet_set_self (m : List (String × List Nat)) (k : String) (v : List Nat) :
    mapGet (mapSet m k v) k = some v := by
  induction m with
  | nil => simp [mapGet, mapSet]
  | cons hd tl ih =>
    obtain ⟨kh, vh⟩ := hd
    by_cases he : kh = k
    · simp [mapSet, mapGet, he]
    · simp [mapSet, mapGet, he, ih]

theorem mapSet_set_self (m : List (String × List Nat)) (k : String) (v : List Nat) :
    mapSet (mapSet m k v) k v = mapSet m k v := by
  induction m with
  | nil => simp [mapSet]
  | cons hd tl ih =>
    obtain ⟨kh, vh⟩ := hd
    by_cases he : kh = k
    · simp [mapSet, he]
    · simp [mapSet, he, ih]

theorem mapGet_delete_self (m : List (String × List Nat)) (k : String)
    (h : (m.map Prod.fst).Nodup) : mapGet (mapDelete m k) k = none := by
  induction m with
  | nil => rfl
  | cons hd tl ih =>
    obtain ⟨kh, vh⟩ := hd
    simp only [List.map_cons, List.nodup_cons] at h
    by_cases he : kh = k
    · simp only [mapDelete, if_pos he]
      apply mapGet_eq_none
      subst he
      exact h.1
    · simp only [mapDelete, if_neg he, mapGet]
      exact ih h.2

theorem filter_ne_idem (l : List Nat) (i : Nat) :
    (l.filter (fun j => j != i)).filter (fun j => j != i) = l.filter (fun j => j != i) := by
  induction l with
  | nil => rfl
  | cons x tl ih =>
    by_cases hx : (x != i) = true
    · simp [List.filter_cons, hx, ih]
    · simp [List.filter_cons, hx, ih]

/-! ### C10: the returned unsubscribe closure -/

theorem unsubInvoke_idem (s : RTState) (tok : Option (String × Nat))
    (h : (s.channels.map Prod.fst).Nodup) :
    unsubInvoke (unsubInvoke s tok) tok = unsubInvoke s tok := by
  rcases tok with _ | ⟨name, i⟩
  · rfl
  · rcases hget : mapGet s.channels name with _ | cbs
    · simp [unsubInvoke, hget]
    · simp only [unsubInvoke, hget]
      by_cases hlen : (cbs.filter (fun j => j != i)).length = 0
      · rw [if_pos hlen]
        simp [unsubInvoke, mapGet_delete_self s.channels name h]
      · rw [if_neg hlen]
        simp [unsubInvoke, mapGet_set_self, filter_ne_idem, hlen, mapSet_set_self]

theorem unsubInvoke_isolated (s : RTState) (c : String) (i j : Nat)
    (hne : j ≠ i) (hj : j ∈ callbacksOf s c) :
    j ∈ callbacksOf (unsubInvoke s (some (c, i))) c := by
  unfold callbacksOf at hj ⊢
  rcases hget : mapGet s.channels c with _ | cbs
  · rw [hget] at hj
    simp at hj
  · rw [hget] at hj
    simp only [Option.getD_some] at hj
    have hjf : j ∈ cbs.filter (fun jj => jj != i) :=
      List.mem_filter.2 ⟨hj, by simpa using hne⟩
    have hlen : ¬ (cbs.filter (fun jj => jj != i)).length = 0 := by
      intro h0
      rw [List.length_eq_zero] at h0
      rw [h0] at hjf
      simp at hjf
    simp only [unsubInvoke, hget]
    rw [if_neg hlen]
    simpa [mapGet_set_self] using hjf

theorem unsubInvoke_after_disconnect (s : RTState) (c : String) (i : Nat) :
    unsubInvoke (disconnect s) (some (c, i)) = disconnect s := by
  simp [unsubInvoke, disconnect, mapGet]

theorem unsubInvoke_after_hard (s : RTState) (c : String) (i : Nat)
    (h : (s.channels.map Prod.fst).Nodup) :
    unsubInvoke (unsubscribe s c) (some (c, i)) = unsubscribe s c := by
  unfold unsubscribe
  rcases hget : mapGet s.channels c with _ | cbs
  · simp [unsubInvoke, hget]
  · simp [unsubInvoke, mapGet_delete_self s.channels c h]

/-- C10: the unsubscribe closure returned by `subscribe` is idempotent and
isolated. On any state whose channel map is a well-formed JS `Map` (one entry
per key): invoking the closure twice equals invoking it once; an invocation
for id `i` never removes another subscriber's callback `j` on the same
channel; and after the channel was torn down by `disconnect()` or by a hard
`unsubscribe(channelName)`, invoking the closure is a no-op. The embedding is
a total function, so no invocation can throw. -/
theorem c10_unsub_closure_idempotent :
    (∀ (s : RTState) (tok : Option (String × Nat)), (s.channels.map Prod.fst).Nodup →
        unsubInvoke (unsubInvoke s tok) tok = unsubInvoke s tok) ∧
    (∀ (s : RTState) (c : String) (i j : Nat), j ≠ i → j ∈ callbacksOf s c →
        j ∈ callbacksOf (unsubInvoke s (some (c, i))) c) ∧
    (∀ (s : RTState) (c : String) (i : Nat),
        unsubInvoke (disconnect s) (some (c, i)) = disconnect s) ∧
    (∀ (s : RTState) (c : String) (i : Nat), (s.channels.map Prod.fst).Nodup →
        unsubInvoke (unsubscribe s c) (some (c, i)) = unsubscribe s c) :=
  ⟨unsubInvoke_idem, unsubInvoke_isolated, unsubInvoke_after_disconnect,
    unsubInvoke_after_hard⟩

/-- Witness for C10 on a channel with two live subscribers (ids 0 and 1). -/
theorem c10_unsub_closure_idempotent_witness :
    unsubInvoke (unsubInvoke twoSubsState (some ("room", 0))) (some ("room", 0)) =
      unsubInvoke twoSubsState (some ("room", 0)) ∧
    1 ∈ callbacksOf (unsubInvoke twoSubsState (some ("room", 0))) "room" ∧
    unsubInvoke (disconnect twoSubsState) (some ("room", 0)) = disconnect twoSubsState ∧
    unsubInvoke (unsubscribe twoSubsState "room") (some ("room", 0)) =
      unsubscribe twoSubsState "room" := by
  obtain ⟨h1, h2, h3, h4⟩ := c10_unsub_closure_idempotent
  exact ⟨h1 twoSubsState (some ("room", 0)) (by decide),
    h2 twoSubsState "room" 0 1 (by decide) (by decide),
    h3 twoSubsState "room" 0,
    h4 twoSubsState "room" 0 (by decide)⟩

/-! ### C1: reference counting along a single-channel trace -/

theorem eq_single_of_filter_eq_nil (cbs : List Nat) (i : Nat)
    (hne : cbs ≠ []) (hnd : cbs.Nodup)
    (hfil : cbs.filter (fun j => j != i) = []) : cbs = [i] := by
  have hall : ∀ j ∈ cbs, j = i := by
    intro j hj
    have hq := List.filter_eq_nil_iff.1 hfil j hj
    simpa using hq
  rcases cbs with _ | ⟨x, tl⟩
  · exact absurd rfl hne
  · have hx := hall x (List.mem_cons_self _ _)
    rcases tl with _ | ⟨y, tl2⟩
    · rw [hx]
    · have hy := hall y (by simp)
      rw [hx, hy] at hnd
      simp at hnd

theorem chanInv_connectedInit (c u : String) : ChanInv c (connectedInit u) :=
  ⟨by simp [connectedInit, initState], rfl, Or.inl rfl⟩

theorem chanStep_spec (c : String) (s : RTState) (e : ChanEv) (h : ChanInv c s) :
    ChanInv c (chanStep c s e) ∧
    (chanStep c s e).creations =
      s.creations +
        (if chanCount c s = 0 ∧ chanCount c (chanStep c s e) = 1 then 1 else 0) ∧
    (chanStep c s e).teardowns =
      s.teardowns +
        (if chanCount c s = 1 ∧ chanCount c (chanStep c s e) = 0 then 1 else 0) := by
  obtain ⟨hu, hst, hch⟩ := h
  have hguard : ¬ (s.user = none ∨ s.status ≠ ConnStatus.connected) := by
    push_neg
    exact ⟨hu, hst⟩
  cases e with
  | sub =>
    rcases hch with hemp | ⟨cbs, hcbs, hne, hnd, hlt⟩
    · have hstep : chanStep c s ChanEv.sub =
          { s with creations := s.creations + 1,
                   channels := [(c, [s.nextId])],
                   subscriptions := s.subscriptions ++ [c],
                   nextId := s.nextId + 1 } := by
        simp [chanStep, subscribe, hguard, hemp, mapGet, mapSet]
      rw [hstep]
      refine ⟨⟨hu, hst, Or.inr ⟨[s.nextId], rfl, by simp, by simp, by simp⟩⟩, ?_, ?_⟩
      · simp [chanCount, hemp, mapGet]
      · simp [chanCount, hemp, mapGet]
    · have hstep : chanStep c s ChanEv.sub =
          { s with channels := [(c, cbs ++ [s.nextId])], nextId := s.nextId + 1 } := by
        simp [chanStep, subscribe, hguard, hcbs, mapGet, mapSet]
      have hlen0 : cbs.length ≠ 0 := by
        simpa [List.length_eq_zero] using hne
      have hnotin : s.nextId ∉ cbs := fun hmem => Nat.lt_irrefl _ (hlt _ hmem)
      have hdisj : List.Disjoint cbs [s.nextId] := by
        intro x hx1 hx2
        simp only [List.mem_singleton] at hx2
        subst hx2
        exact hnotin hx1
      rw [hstep]
      refine ⟨⟨hu, hst, Or.inr ⟨cbs ++ [s.nextId], rfl, by simp,
        hnd.append (List.nodup_singleton _) hdisj, ?_⟩⟩, ?_, ?_⟩
      · intro x hx
        rcases List.mem_append.1 hx with hx1 | hx1
        · exact Nat.lt_succ_of_lt (hlt x hx1)
        · simp only [List.mem_singleton] at hx1
          subst hx1
          exact Nat.lt_succ_self _
      · simp [chanCount, hcbs, mapGet, hlen0]
      · simp [chanCount, hcbs, mapGet]
  | unsub i =>
    rcases hch with hemp | ⟨cbs, hcbs, hne, hnd, hlt⟩
    · have hstep : chanStep c s (ChanEv.unsub i) = s := by
        simp [chanStep, unsubInvoke, hemp, mapGet]
      rw [hstep]
      refine ⟨⟨hu, hst, Or.inl hemp⟩, ?_, ?_⟩
      · simp [chanCount, hemp, mapGet]
      · simp [chanCount, hemp, mapGet]
    · by_cases hfil : (cbs.filter (fun j => j != i)).length = 0
      · have hsingle : cbs = [i] :=
          eq_single_of_filter_eq_nil cbs i hne hnd (List.length_eq_zero.1 hfil)
        have hstep : chanStep c s (ChanEv.unsub i) =
            { s with channels := [],
                     subscriptions := s.subscriptions.filter (fun n => n != c),
                     teardowns := s.teardowns + 1 } := by
          simp [chanStep, unsubInvoke, hcbs, mapGet, hfil, mapDelete]
        rw [hstep]
        refine ⟨⟨hu, hst, Or.inl rfl⟩, ?_, ?_⟩
        · simp [chanCount, hcbs, mapGet, hsingle]
        · simp [chanCount, hcbs, mapGet, hsingle]
      · have hstep : chanStep c s (ChanEv.unsub i) =
            { s with channels := [(c, cbs.filter (fun j => j != i))] } := by
          simp [chanStep, unsubInvoke, hcbs, mapGet, hfil, mapSet]
        have hlen0 : cbs.length ≠ 0 := by
          simpa [List.length_eq_zero] using hne
        rw [hstep]
        refine ⟨⟨hu, hst, Or.inr ⟨cbs.filter (fun j => j != i), rfl,
          fun h0 => hfil (by simp [h0]), hnd.filter _, ?_⟩⟩, ?_, ?_⟩
        · intro x hx
          exact hlt x (List.mem_of_mem_filter hx)
        · simp [chanCount, hcbs, mapGet, hlen0]
        · simp [chanCount, hcbs, mapGet, hfil]

theorem chanRun_spec (c : String) :
    ∀ (evs : List ChanEv) (s : RTState), ChanInv c s →
      ChanInv c (chanRun c s evs) ∧
      (chanRun c s evs).creations = s.creations + upTransitions c s evs ∧
      (chanRun c s evs).teardowns = s.teardowns + downTransitions c s evs := by
  intro evs
  induction evs with
  | nil =>
    intro s h
    exact ⟨h, by simp [chanRun, upTransitions], by simp [chanRun, downTransitions]⟩
  | cons e es ih =>
    intro s h
    obtain ⟨h1, h2, h3⟩ := chanStep_spec c s e h
    obtain ⟨ih1, ih2, ih3⟩ := ih (chanStep c s e) h1
    refine ⟨?_, ?_, ?_⟩
    · simpa [chanRun] using ih1
    · simp only [chanRun, upTransitions]
      rw [ih2, h2, Nat.add_assoc]
    · simp only [chanRun, downTransitions]
      rw [ih3, h3, Nat.add_assoc]

/-- C1: along every sequence of `subscribe` calls and unsubscribe-closure
invocations on a single channel name, starting while connected, the number of
physical channel creations equals the number of 0-to-1 transitions of that
channel's active-callback count, the number of physical teardowns equals the
number of 1-to-0 transitions, and at every intermediate state the channel map
holds at most one entry, with no duplicate channel names. -/
theorem c1_channel_refcount (c u : String) (evs : List ChanEv) :
    (chanRun c (connectedInit u) evs).creations =
      upTransitions c (connectedInit u) evs ∧
    (chanRun c (connectedInit u) evs).teardowns =
      downTransitions c (connectedInit u) evs ∧
    ∀ n : Nat,
      (chanRun c (connectedInit u) (List.take n evs)).channels.length ≤ 1 ∧
      ((chanRun c (connectedInit u) (List.take n evs)).channels.map Prod.fst).Nodup := by
  obtain ⟨h1, h2, h3⟩ := chanRun_spec c evs (connectedInit u) (chanInv_connectedInit c u)
  refine ⟨?_, ?_, ?_⟩
  · simpa [connectedInit, initState] using h2
  · simpa [connectedInit, initState] using h3
  · intro n
    obtain ⟨⟨_, _, hch⟩, _, _⟩ :=
      chanRun_spec c (List.take n evs) (connectedInit u) (chanInv_connectedInit c u)
    rcases hch with hemp | ⟨cbs, hcbs, _, _, _⟩
    · rw [hemp]
      exact ⟨by simp, by simp⟩
    · rw [hcbs]
      exact ⟨by simp, by simp⟩

end Navigator
